import Mathlib

/-!
Verification development for the EnterpriseChatX customer-support chat server.

The definitions below are a shallow embedding of the server-side code:
the in-memory store (`MemStorage` in `server/storage.ts`) and the HTTP /
WebSocket route handlers (`registerRoutes` in `server/routes.ts`).
JavaScript `Date.now()` timestamps are modelled as `Nat`, `randomUUID()`
values are passed in as explicit `String` parameters, and nullable /
optional JavaScript values are modelled with `Option`.
-/

namespace EnterpriseChatX

/-- JS `x || defaultString` on a possibly-undefined string: `undefined`,
`null` and `""` are falsy and give the default. -/
def jsOrStr (o : Option String) (d : String) : String :=
  match o with
  | some s => if s = "" then d else s
  | none => d

/-- JS `x || null` on a possibly-undefined string: `""` collapses to null. -/
def orNull (o : Option String) : Option String :=
  match o with
  | some s => if s = "" then none else some s
  | none => none

/-- JS truthiness of a possibly-undefined string (used in `if (message.sessionId)`). -/
def truthyStr (o : Option String) : Bool :=
  match o with
  | some s => s != ""
  | none => false

/-- Model of JS `Map.set` semantics on a list kept in insertion order: replace the entry
with the same key if present, otherwise append. -/
def listSet {α : Type} (key : α → String) (xs : List α) (x : α) : List α :=
  if xs.any (fun y => key y == key x) then
    xs.map (fun y => if key y == key x then x else y)
  else xs ++ [x]

/-- A user/agent record (`users` table). -/
structure User where
  id : String
  username : String
  password : String
  role : String
  name : String
  email : String
  isOnline : Bool
  createdAt : Nat
deriving Repr, DecidableEq

/-- A customer record (`customers` table). -/
structure Customer where
  id : String
  name : String
  email : String
  customerId : Option String
  memberSince : Nat
  totalOrders : Nat
  status : String
deriving Repr, DecidableEq

/-- One entry of a chat session's transfer history. Both paths that build
these records read the fields out of a loosely-typed request payload, so
`toAgent` and `reason` are optional strings. -/
structure TransferRecord where
  fromAgent : Option String
  toAgent : Option String
  timestamp : Nat
  reason : Option String
deriving Repr, DecidableEq

/-- A chat session record (`chat_sessions` table). `sessionId` is the
human-readable session code used on the wire; `id` is the storage key. -/
structure ChatSession where
  id : String
  sessionId : String
  customerId : Option String
  agentId : Option String
  status : String
  startTime : Nat
  endTime : Option Nat
  transferHistory : List TransferRecord
  rating : Option Nat
deriving Repr, DecidableEq

/-- A chat message record (`messages` table). -/
structure Message where
  id : String
  sessionId : Option String
  senderId : Option String
  senderType : Option String
  content : Option String
  messageType : String
  timestamp : Nat
  readBy : List String
deriving Repr, DecidableEq

/-- The in-memory store (`MemStorage`): one JS `Map` per entity, modelled as
lists in insertion order. SOP documents and quick replies play no role in
the claims and are omitted. -/
structure Store where
  users : List User
  customers : List Customer
  chatSessions : List ChatSession
  messages : List Message
deriving Repr, DecidableEq

/-! ## Store operations (`MemStorage` methods) -/

/-- Model of `MemStorage.getUser`. -/
def getUser (st : Store) (id : String) : Option User :=
  st.users.find? (fun u => u.id == id)

/-- Model of `MemStorage.getUserByUsername`. -/
def getUserByUsername (st : Store) (username : String) : Option User :=
  st.users.find? (fun u => u.username == username)

/-- Model of `MemStorage.updateUserOnlineStatus`: mutate the matching user in place. -/
def updateUserOnlineStatus (st : Store) (id : String) (isOnline : Bool) : Store :=
  { st with users := st.users.map (fun u => if u.id == id then { u with isOnline := isOnline } else u) }

/-- Model of `MemStorage.getAgentsByRole`. -/
def getAgentsByRole (st : Store) (role : String) : List User :=
  st.users.filter (fun u => u.role == role)

/-- Model of `MemStorage.getOnlineAgents`. -/
def getOnlineAgents (st : Store) : List User :=
  st.users.filter (fun u => u.role != "customer" && u.isOnline)

/-- Model of `MemStorage.getCustomer`. -/
def getCustomer (st : Store) (id : String) : Option Customer :=
  st.customers.find? (fun c => c.id == id)

/-- Model of `MemStorage.getCustomerByEmail` (first inserted match). -/
def getCustomerByEmail (st : Store) (email : String) : Option Customer :=
  st.customers.find? (fun c => c.email == email)

/-- Fields the caller passes to `createCustomer` (`InsertCustomer`). -/
structure InsertCustomer where
  name : String
  email : String
  customerId : Option String
  totalOrders : Option Nat
  status : Option String
deriving Repr, DecidableEq

/-- Model of `MemStorage.createCustomer`; the fresh `randomUUID()` is the `id`
parameter and `new Date()` is `now`. -/
def createCustomer (st : Store) (ic : InsertCustomer) (id : String) (now : Nat) :
    Customer × Store :=
  let customer : Customer :=
    { id := id
      name := ic.name
      email := ic.email
      customerId := orNull ic.customerId
      memberSince := now
      totalOrders := ic.totalOrders.getD 0
      status := jsOrStr ic.status "regular" }
  (customer, { st with customers := listSet (fun c => c.id) st.customers customer })

/-- Model of `MemStorage.getChatSession`. -/
def getChatSession (st : Store) (id : String) : Option ChatSession :=
  st.chatSessions.find? (fun s => s.id == id)

/-- Model of `MemStorage.getChatSessionBySessionId` (lookup by session code). -/
def getChatSessionBySessionId (st : Store) (sessionId : String) : Option ChatSession :=
  st.chatSessions.find? (fun s => s.sessionId == sessionId)

/-- Fields the caller passes to `createChatSession` (`InsertChatSession`). -/
structure InsertChatSession where
  sessionId : String
  customerId : Option String
  agentId : Option String
  status : Option String
deriving Repr, DecidableEq

/-- Model of `MemStorage.createChatSession`. -/
def createChatSession (st : Store) (ins : InsertChatSession) (id : String) (now : Nat) :
    ChatSession × Store :=
  let session : ChatSession :=
    { id := id
      sessionId := ins.sessionId
      customerId := orNull ins.customerId
      agentId := orNull ins.agentId
      status := jsOrStr ins.status "active"
      startTime := now
      endTime := none
      transferHistory := []
      rating := none }
  (session, { st with chatSessions := listSet (fun s => s.id) st.chatSessions session })

/-- A `Partial<ChatSession>` argument of `updateChatSession`: `some v` means
the field is present in the update object (and overwrites via spread). -/
structure SessionUpdate where
  customerId : Option (Option String) := none
  agentId : Option (Option String) := none
  status : Option String := none
  endTime : Option (Option Nat) := none
  transferHistory : Option (List TransferRecord) := none
  rating : Option (Option Nat) := none
deriving Repr, DecidableEq

/-- The spread `{ ...session, ...updates }`. -/
def applySessionUpdate (s : ChatSession) (u : SessionUpdate) : ChatSession :=
  { s with
      customerId := u.customerId.getD s.customerId
      agentId := u.agentId.getD s.agentId
      status := u.status.getD s.status
      endTime := u.endTime.getD s.endTime
      transferHistory := u.transferHistory.getD s.transferHistory
      rating := u.rating.getD s.rating }

/-- Model of `MemStorage.updateChatSession`. -/
def updateChatSession (st : Store) (id : String) (u : SessionUpdate) :
    Option ChatSession × Store :=
  match getChatSession st id with
  | none => (none, st)
  | some s =>
    let updated := applySessionUpdate s u
    (some updated, { st with chatSessions := listSet (fun x => x.id) st.chatSessions updated })

/-- Fields the caller passes to `createMessage` (`InsertMessage`). -/
structure InsertMessage where
  sessionId : Option String
  senderId : Option String
  senderType : Option String
  content : Option String
  messageType : Option String
deriving Repr, DecidableEq

/-- Model of `MemStorage.createMessage`. -/
def createMessage (st : Store) (im : InsertMessage) (id : String) (now : Nat) :
    Message × Store :=
  let message : Message :=
    { id := id
      sessionId := orNull im.sessionId
      senderId := orNull im.senderId
      senderType := im.senderType
      content := im.content
      messageType := jsOrStr im.messageType "text"
      timestamp := now
      readBy := [] }
  (message, { st with messages := listSet (fun m => m.id) st.messages message })

/-- Model of `MemStorage.getMessagesBySession` (filter; sort by timestamp is stable
and irrelevant to the claims, the filtered list is already built in
insertion order). -/
def getMessagesBySession (st : Store) (sessionId : String) : List Message :=
  st.messages.filter (fun m => m.sessionId == some sessionId)

/-! ## WebSocket layer (`registerRoutes` in `server/routes.ts`) -/

/-- One entry of the `connectedClients` map: a live socket with its
(optional) identity and session binding, plus the socket's open state. -/
structure WsClient where
  clientId : String
  userId : Option String
  userType : String
  sessionId : Option String
  isOpen : Bool
deriving Repr, DecidableEq

/-- The `data` payload of an inbound frame; every field is optional since
the payload is untyped JSON. -/
structure WSData where
  content : Option String := none
  senderName : Option String := none
  newAgentId : Option String := none
  reason : Option String := none
  endedBy : Option String := none
deriving Repr, DecidableEq

/-- An inbound wire frame (`WSMessage`). -/
structure WSMessage where
  type : String
  sessionId : Option String := none
  userId : Option String := none
  userType : Option String := none
  data : Option WSData := none
deriving Repr, DecidableEq

/-- An outbound frame produced by the hub, tagged by which handler sent it. -/
inductive OutEvent where
  /-- The `chat_message` broadcast: the stored message spread together with
  the inbound `senderName`. -/
  | chatMessage (sessionId : String) (message : Message) (senderName : Option String)
  /-- A typing indicator forwarded verbatim. -/
  | typingForward (msg : WSMessage)
  /-- The `session_transfer` broadcast (echoes the inbound `data`). -/
  | transfer (sessionId : String) (d : WSData)
  /-- The `session_ended` broadcast. -/
  | ended (sessionId : String) (endedBy : Option String)
  /-- The `agent_status` broadcast on join/close. -/
  | agentStatus (status : String) (userId : Option String) (userType : Option String)
deriving Repr, DecidableEq

/-- Model of `broadcastToSession`: deliver `msg` to every connected client bound to
`sessionId` whose socket is open, except the excluded client id. Returns
the list of (clientId, frame) sends. -/
def broadcastToSession (clients : List WsClient) (sessionId : String) (msg : OutEvent)
    (excludeClientId : Option String) : List (String × OutEvent) :=
  (clients.filter (fun c =>
      c.sessionId == some sessionId && some c.clientId != excludeClientId && c.isOpen)).map
    (fun c => (c.clientId, msg))

/-- What one inbound frame produced: the store afterwards, the broadcast
sends, any error frame sent back to the triggering connection, and any
server-side `console.error` log line. -/
structure WsOutcome where
  store : Store
  deliveries : List (String × OutEvent)
  errorToSender : Option String
  serverLog : Option String
deriving Repr, DecidableEq

/-- The `chat_message` case of the socket handler, abstracted over the
result of the `storage.createMessage` call so that a throwing store can be
analysed: the surrounding `try`/`catch` turns a throw into a
`console.error` log line and nothing else. -/
def wsChatMessageWith (clients : List WsClient) (msg : WSMessage)
    (createRes : Except String (Message × Store)) (st : Store) : WsOutcome :=
  match msg.sessionId, msg.data with
  | some sid, some d =>
    if sid ≠ "" then
      match createRes with
      | .ok (newMessage, st1) =>
        { store := st1
          deliveries := broadcastToSession clients sid
            (OutEvent.chatMessage sid newMessage d.senderName) none
          errorToSender := none
          serverLog := none }
      | .error e =>
        { store := st, deliveries := [], errorToSender := none
          serverLog := some ("WebSocket message error: " ++ e) }
    else { store := st, deliveries := [], errorToSender := none, serverLog := none }
  | _, _ => { store := st, deliveries := [], errorToSender := none, serverLog := none }

/-- The `chat_message` case against the in-memory store, whose
`createMessage` always succeeds. -/
def wsChatMessage (clients : List WsClient) (msg : WSMessage) (msgUuid : String)
    (now : Nat) (st : Store) : WsOutcome :=
  wsChatMessageWith clients msg
    (Except.ok (createMessage st
      { sessionId := msg.sessionId
        senderId := msg.userId
        senderType := msg.userType
        content := msg.data.bind (fun d => d.content)
        messageType := some "text" } msgUuid now)) st

/-- The `agent_typing` / `customer_typing` cases: forward the frame to the
other connections on the session (sender excluded); the store is untouched. -/
def wsTyping (clients : List WsClient) (senderClientId : String) (msg : WSMessage)
    (st : Store) : Store × List (String × OutEvent) :=
  match msg.sessionId with
  | some sid =>
    if sid ≠ "" then
      (st, broadcastToSession clients sid (OutEvent.typingForward msg) (some senderClientId))
    else (st, [])
  | none => (st, [])

/-- The `session_transfer` case: look the session up by code, append a
transfer record, reassign the agent, broadcast. No check that the target
agent exists, and no audit message is created. -/
def wsSessionTransfer (clients : List WsClient) (msg : WSMessage) (now : Nat)
    (st : Store) : Store × List (String × OutEvent) :=
  match msg.sessionId, msg.data with
  | some sid, some d =>
    if sid ≠ "" then
      match getChatSessionBySessionId st sid with
      | none => (st, [])
      | some session =>
        let record : TransferRecord :=
          { fromAgent := session.agentId
            toAgent := d.newAgentId
            timestamp := now
            reason := d.reason }
        let upd := updateChatSession st session.id
          { agentId := some d.newAgentId
            transferHistory := some (session.transferHistory ++ [record]) }
        (upd.2, broadcastToSession clients sid (OutEvent.transfer sid d) none)
    else (st, [])
  | _, _ => (st, [])

/-- The `session_ended` case: mark the session resolved with an end time,
then broadcast. -/
def wsSessionEnded (clients : List WsClient) (msg : WSMessage) (now : Nat)
    (st : Store) : Store × List (String × OutEvent) :=
  match msg.sessionId with
  | some sid =>
    if sid ≠ "" then
      match getChatSessionBySessionId st sid with
      | none => (st, [])
      | some session =>
        let upd := updateChatSession st session.id
          { status := some "resolved", endTime := some (some now) }
        (upd.2, broadcastToSession clients sid (OutEvent.ended sid msg.userId) none)
    else (st, [])
  | none => (st, [])

/-! ## HTTP layer (`registerRoutes` in `server/routes.ts`) -/

/-- The serialised user object sent in HTTP responses: the spread
`{ ...user, password: undefined }`, whose `password` key is dropped by the
JSON serialiser (`none` here). -/
structure SerializedUser where
  id : String
  username : String
  password : Option String
  role : String
  name : String
  email : String
  isOnline : Bool
  createdAt : Nat
deriving Repr, DecidableEq

/-- The spread `{ ...user, password: undefined }`. -/
def stripPassword (u : User) : SerializedUser :=
  { id := u.id, username := u.username, password := none, role := u.role
    name := u.name, email := u.email, isOnline := u.isOnline, createdAt := u.createdAt }

/-- Response of `POST /api/auth/login`. -/
inductive LoginResponse where
  | ok (user : SerializedUser)
  /-- Response 401 `Invalid credentials`. -/
  | invalidCredentials
deriving Repr, DecidableEq

/-- Model of `POST /api/auth/login`: look the user up by username, compare the
password, mark online, respond with the password-stripped user. The
response object is built from the same (mutated) user record, so its
`isOnline` flag is already `true`. -/
def login (username password : String) (st : Store) : LoginResponse × Store :=
  match getUserByUsername st username with
  | none => (.invalidCredentials, st)
  | some user =>
    if user.password != password then (.invalidCredentials, st)
    else
      (.ok (stripPassword { user with isOnline := true }),
       updateUserOnlineStatus st user.id true)

/-- Model of `GET /api/agents`: online agents with passwords stripped. -/
def getAgentsResponse (st : Store) : List SerializedUser :=
  (getOnlineAgents st).map stripPassword

/-- Response of `POST /api/chat/start`. -/
inductive StartChatResponse where
  | ok (session : ChatSession) (customer : Customer) (agent : User)
  /-- Response 503 `No agents available`. -/
  | noAgentsAvailable
deriving Repr, DecidableEq

/-- The generated session code: `CHT-${Date.now()}-${randomUUID().slice(0, 8)}`. -/
def genSessionCode (now : Nat) (uuid : String) : String :=
  "CHT-" ++ toString now ++ "-" ++ uuid.take 8

/-- The customer phase of `POST /api/chat/start`: reuse the customer whose
email matches, otherwise create one. -/
def lookupOrCreateCustomer (customerEmail customerName custUuid : String) (now : Nat)
    (st : Store) : Customer × Store :=
  match getCustomerByEmail st customerEmail with
  | some c => (c, st)
  | none =>
    createCustomer st
      { name := customerName
        email := customerEmail
        customerId := some ("CUS-" ++ toString now)
        totalOrders := some 0
        status := some "regular" } custUuid now

/-- Model of `POST /api/chat/start`: customer lookup/create, agent selection among
online base-tier agents, session creation. `custUuid`/`sessUuid` stand for
the `randomUUID()` ids of the created customer/session rows and `codeUuid`
for the UUID sliced into the session code. -/
def startChat (customerEmail customerName custUuid sessUuid codeUuid : String)
    (now : Nat) (st : Store) : StartChatResponse × Store :=
  let c := lookupOrCreateCustomer customerEmail customerName custUuid now st
  match (getAgentsByRole c.2 "agent").find? (fun a => a.isOnline) with
  | none => (.noAgentsAvailable, c.2)
  | some onlineAgent =>
    let s := createChatSession c.2
      { sessionId := genSessionCode now codeUuid
        customerId := some c.1.id
        agentId := some onlineAgent.id
        status := some "active" } sessUuid now
    (.ok s.1 c.1 onlineAgent, s.2)

/-- Response of `POST /api/chat/transfer`. -/
inductive TransferResponse where
  /-- Success response `res.json(updatedSession)`; the body is what `updateChatSession` returned. -/
  | ok (session : Option ChatSession)
  /-- Response 404 `Session not found`. -/
  | sessionNotFound
  /-- Response 404 `Agent not found`. -/
  | agentNotFound
deriving Repr, DecidableEq

/-- JS `s.replace('_', ' ')`: replace the first underscore (if any) by a space. -/
def replaceFirstUnderscoreChars : List Char → List Char
  | [] => []
  | c :: cs => if c = '_' then ' ' :: cs else c :: replaceFirstUnderscoreChars cs

/-- JS `s.replace('_', ' ')` on strings. -/
def replaceFirstUnderscore (s : String) : String :=
  ⟨replaceFirstUnderscoreChars s.data⟩

/-- The system audit message created by `POST /api/chat/transfer`. -/
def transferContent (newAgent : User) : String :=
  "Chat transferred to " ++ newAgent.name ++ " (" ++ replaceFirstUnderscore newAgent.role ++ ")"

/-- Model of `POST /api/chat/transfer`: find session by code (404), find target
agent (404), append a transfer record and reassign the agent, then create
a system audit message. -/
def httpTransferChat (sessionCode newAgentId : String) (reason : Option String)
    (msgUuid : String) (now : Nat) (st : Store) : TransferResponse × Store :=
  match getChatSessionBySessionId st sessionCode with
  | none => (.sessionNotFound, st)
  | some session =>
    match getUser st newAgentId with
    | none => (.agentNotFound, st)
    | some newAgent =>
      let record : TransferRecord :=
        { fromAgent := session.agentId
          toAgent := some newAgentId
          timestamp := now
          reason := reason }
      let upd := updateChatSession st session.id
        { agentId := some (some newAgentId)
          transferHistory := some (session.transferHistory ++ [record]) }
      let msg := createMessage upd.2
        { sessionId := some session.id
          senderId := some "system"
          senderType := some "system"
          content := some (transferContent newAgent)
          messageType := some "system" } msgUuid now
      (.ok upd.1, msg.2)

/-- Response of `POST /api/chat/end/:sessionId`. -/
inductive EndChatResponse where
  | ok (session : Option ChatSession)
  /-- Response 404 `Session not found`. -/
  | sessionNotFound
deriving Repr, DecidableEq

/-- Model of `POST /api/chat/end/:sessionId`: mark the session resolved with an end time. -/
def endChat (sessionCode : String) (now : Nat) (st : Store) : EndChatResponse × Store :=
  match getChatSessionBySessionId st sessionCode with
  | none => (.sessionNotFound, st)
  | some session =>
    let upd := updateChatSession st session.id
      { status := some "resolved", endTime := some (some now) }
    (.ok upd.1, upd.2)

/-! ## Helper lemmas about `listSet` -/

theorem mem_listSet {α : Type} (key : α → String) (xs : List α) (x y : α)
    (h : y ∈ listSet key xs x) : y ∈ xs ∨ y = x := by
  unfold listSet at h
  split at h
  · rcases List.mem_map.mp h with ⟨z, hz, hzy⟩
    by_cases hk : key z == key x
    · right
      simp only [hk, if_pos] at hzy
      exact hzy.symm
    · left
      simp only [hk] at hzy
      rw [if_neg] at hzy
      · exact hzy ▸ hz
      · simp [hk]
  · rcases List.mem_append.mp h with h1 | h1
    · exact Or.inl h1
    · right
      simpa using h1

theorem listSet_of_fresh {α : Type} (key : α → String) (xs : List α) (x : α)
    (h : ∀ y ∈ xs, key y ≠ key x) : listSet key xs x = xs ++ [x] := by
  unfold listSet
  rw [if_neg]
  intro hc
  rcases List.any_eq_true.mp hc with ⟨y, hy, hb⟩
  exact h y hy (by simpa using hb)

/-! ## The endTime/status invariant (claim C1) -/

/-- A single session satisfies the lifecycle invariant: its end time is set
exactly when it is resolved or terminated. -/
def goodSession (s : ChatSession) : Prop :=
  s.endTime ≠ none ↔ (s.status = "resolved" ∨ s.status = "terminated")

instance (s : ChatSession) : Decidable (goodSession s) := by
  unfold goodSession; infer_instance

/-- Every stored session satisfies the lifecycle invariant. -/
def EndTimeInv (st : Store) : Prop := ∀ s ∈ st.chatSessions, goodSession s

theorem lookupOrCreateCustomer_chatSessions (e n cu : String) (now : Nat) (st : Store) :
    ((lookupOrCreateCustomer e n cu now st).2).chatSessions = st.chatSessions := by
  unfold lookupOrCreateCustomer
  cases getCustomerByEmail st e <;> rfl

theorem lookupOrCreateCustomer_users (e n cu : String) (now : Nat) (st : Store) :
    ((lookupOrCreateCustomer e n cu now st).2).users = st.users := by
  unfold lookupOrCreateCustomer
  cases getCustomerByEmail st e <;> rfl

theorem updateChatSession_inv {st : Store} {id : String} {u : SessionUpdate}
    (h : EndTimeInv st)
    (hupd : ∀ s, getChatSession st id = some s → goodSession (applySessionUpdate s u)) :
    EndTimeInv (updateChatSession st id u).2 := by
  unfold updateChatSession
  cases hg : getChatSession st id with
  | none => exact h
  | some s =>
    intro y hy
    rcases mem_listSet _ _ _ _ hy with h1 | h1
    · exact h y h1
    · exact h1 ▸ hupd s hg

theorem startChat_inv {st : Store} (e n cu su co : String) (now : Nat)
    (h : EndTimeInv st) : EndTimeInv (startChat e n cu su co now st).2 := by
  have hc := lookupOrCreateCustomer_chatSessions e n cu now st
  cases hfind : (getAgentsByRole (lookupOrCreateCustomer e n cu now st).2 "agent").find?
      (fun a => a.isOnline) with
  | none =>
    simp only [startChat, hfind]
    intro s hs
    exact h s (by rw [hc] at hs; exact hs)
  | some a =>
    simp only [startChat, hfind, createChatSession]
    intro s hs
    rcases mem_listSet _ _ _ _ hs with h1 | h1
    · exact h s (by rw [hc] at h1; exact h1)
    · subst h1
      simp [goodSession, jsOrStr]

theorem endChat_inv {st : Store} (code : String) (now : Nat)
    (h : EndTimeInv st) : EndTimeInv (endChat code now st).2 := by
  unfold endChat
  cases hg : getChatSessionBySessionId st code with
  | none => exact h
  | some session =>
    refine updateChatSession_inv h (fun s _ => ?_)
    simp [goodSession, applySessionUpdate]

theorem wsSessionEnded_inv {st : Store} (clients : List WsClient) (msg : WSMessage)
    (now : Nat) (h : EndTimeInv st) : EndTimeInv (wsSessionEnded clients msg now st).1 := by
  cases hm : msg.sessionId with
  | none => simp only [wsSessionEnded, hm]; exact h
  | some sid =>
    cases hg : getChatSessionBySessionId st sid with
    | none =>
      simp only [wsSessionEnded, hm, hg]
      split <;> exact h
    | some session =>
      simp only [wsSessionEnded, hm, hg]
      split
      · refine updateChatSession_inv h (fun s _ => ?_)
        simp [goodSession, applySessionUpdate]
      · exact h

theorem httpTransferChat_inv {st : Store} (code aid : String) (r : Option String)
    (mu : String) (now : Nat) (h : EndTimeInv st) :
    EndTimeInv (httpTransferChat code aid r mu now st).2 := by
  unfold httpTransferChat
  cases hg : getChatSessionBySessionId st code with
  | none => exact h
  | some session =>
    cases hu : getUser st aid with
    | none => exact h
    | some agent =>
      simp only []
      have hmem := List.mem_of_find?_eq_some hg
      have : EndTimeInv (updateChatSession st session.id
          { agentId := some (some aid)
            transferHistory := some (session.transferHistory ++
              [{ fromAgent := session.agentId, toAgent := some aid,
                 timestamp := now, reason := r }]) }).2 := by
        refine updateChatSession_inv h (fun s hs => ?_)
        have hsmem := List.mem_of_find?_eq_some hs
        have hgood := h s hsmem
        simpa [goodSession, applySessionUpdate] using hgood
      exact this

theorem wsSessionTransfer_inv {st : Store} (clients : List WsClient) (msg : WSMessage)
    (now : Nat) (h : EndTimeInv st) : EndTimeInv (wsSessionTransfer clients msg now st).1 := by
  cases hm : msg.sessionId with
  | none => simp only [wsSessionTransfer, hm]; exact h
  | some sid =>
    cases hd : msg.data with
    | none => simp only [wsSessionTransfer, hm, hd]; exact h
    | some d =>
      cases hg : getChatSessionBySessionId st sid with
      | none =>
        simp only [wsSessionTransfer, hm, hd, hg]
        split <;> exact h
      | some session =>
        simp only [wsSessionTransfer, hm, hd, hg]
        split
        · refine updateChatSession_inv h (fun s hs => ?_)
          have hsmem := List.mem_of_find?_eq_some hs
          have hgood := h s hsmem
          simpa [goodSession, applySessionUpdate] using hgood
        · exact h

theorem wsChatMessage_store_chatSessions (clients : List WsClient) (msg : WSMessage)
    (mu : String) (now : Nat) (st : Store) :
    ((wsChatMessage clients msg mu now st).store).chatSessions = st.chatSessions := by
  cases hm : msg.sessionId with
  | none => simp only [wsChatMessage, wsChatMessageWith, hm]
  | some sid =>
    cases hd : msg.data with
    | none => simp only [wsChatMessage, wsChatMessageWith, hm, hd]
    | some d =>
      simp only [wsChatMessage, wsChatMessageWith, hm, hd]
      split
      · rfl
      · rfl

/-- One step of the session lifecycle: any of the operations that the HTTP
layer or the socket hub can run against the store. -/
inductive LifecycleStep : Store → Store → Prop where
  | start (st : Store) (e n cu su co : String) (now : Nat) :
      LifecycleStep st (startChat e n cu su co now st).2
  | endHttp (st : Store) (code : String) (now : Nat) :
      LifecycleStep st (endChat code now st).2
  | endWs (st : Store) (clients : List WsClient) (msg : WSMessage) (now : Nat) :
      LifecycleStep st (wsSessionEnded clients msg now st).1
  | transferHttp (st : Store) (code aid : String) (r : Option String) (mu : String) (now : Nat) :
      LifecycleStep st (httpTransferChat code aid r mu now st).2
  | transferWs (st : Store) (clients : List WsClient) (msg : WSMessage) (now : Nat) :
      LifecycleStep st (wsSessionTransfer clients msg now st).1
  | message (st : Store) (clients : List WsClient) (msg : WSMessage) (mu : String) (now : Nat) :
      LifecycleStep st (wsChatMessage clients msg mu now st).store

/-- Stores reachable from a fresh process (arbitrary seeded users and
customers, no chat sessions yet) through lifecycle operations. -/
inductive ReachableStore : Store → Prop where
  | init (users : List User) (customers : List Customer) :
      ReachableStore { users := users, customers := customers, chatSessions := [], messages := [] }
  | step {st st' : Store} : ReachableStore st → LifecycleStep st st' → ReachableStore st'

/-- C1: in every store reachable through the lifecycle operations (session
creation via `POST /api/chat/start`, ending via `POST /api/chat/end` or the
`session_ended` socket event, plus the transfer and message operations),
every stored chat session has a non-null `endTime` if and only if its
status is `resolved` or `terminated`. -/
theorem reachable_endTime_iff_resolved (st : Store) (h : ReachableStore st) :
    ∀ s ∈ st.chatSessions,
      (s.endTime ≠ none ↔ (s.status = "resolved" ∨ s.status = "terminated")) := by
  induction h with
  | init us cs => intro s hs; simp at hs
  | step _ hstep ih =>
    cases hstep with
    | start e n cu su co now => exact startChat_inv e n cu su co now ih
    | endHttp code now => exact endChat_inv code now ih
    | endWs clients msg now => exact wsSessionEnded_inv clients msg now ih
    | transferHttp code aid r mu now => exact httpTransferChat_inv code aid r mu now ih
    | transferWs clients msg now => exact wsSessionTransfer_inv clients msg now ih
    | message clients msg mu now =>
      intro s hs
      rw [wsChatMessage_store_chatSessions] at hs
      exact ih s hs

/-! ## More `listSet` lemmas -/

theorem self_mem_listSet {α : Type} (key : α → String) (xs : List α) (x : α) :
    x ∈ listSet key xs x := by
  unfold listSet
  split
  case isTrue hany =>
    rcases List.any_eq_true.mp hany with ⟨y, hy, hky⟩
    exact List.mem_map.mpr ⟨y, hy, by simp [hky]⟩
  case isFalse =>
    exact List.mem_append.mpr (Or.inr (by simp))

theorem mem_listSet_of_ne_key {α : Type} (key : α → String) (xs : List α) (x y : α)
    (hy : y ∈ xs) (hne : key y ≠ key x) : y ∈ listSet key xs x := by
  unfold listSet
  split
  · exact List.mem_map.mpr ⟨y, hy, by simp [hne]⟩
  · exact List.mem_append.mpr (Or.inl hy)

theorem find?_listSet {α : Type} (key : α → String) (xs : List α) (x : α)
    (hmem : ∃ y ∈ xs, key y = key x) :
    (listSet key xs x).find? (fun y => key y == key x) = some x := by
  unfold listSet
  rw [if_pos (List.any_eq_true.mpr (by
    rcases hmem with ⟨y, hy, hky⟩
    exact ⟨y, hy, by simp [hky]⟩))]
  induction xs with
  | nil =>
    rcases hmem with ⟨y, hy, _⟩
    cases hy
  | cons z zs ih =>
    by_cases hz : key z = key x
    · simp [List.find?, hz]
    · have hzf : (key z == key x) = false := by simp [hz]
      simp only [List.map_cons, List.find?_cons, hzf, Bool.false_eq_true, if_false]
      refine ih ?_
      rcases hmem with ⟨y, hy, hky⟩
      rcases List.mem_cons.mp hy with h1 | h1
      · exact absurd (h1 ▸ hky) hz
      · exact ⟨y, h1, hky⟩

/-! ## Concrete fixtures used by witnesses and counterexamples -/

/-- A concrete online base-tier agent (mirrors the seeded `agent1`). -/
def agentMike : User :=
  { id := "user-mike", username := "agent1", password := "password123", role := "agent"
    name := "Mike Thompson", email := "mike.thompson@company.com", isOnline := true
    createdAt := 0 }

/-- A concrete online senior agent (not auto-assignable). -/
def seniorDavid : User :=
  { id := "user-david", username := "senior1", password := "password123", role := "senior_agent"
    name := "David Kim", email := "david.kim@company.com", isOnline := true, createdAt := 0 }

/-- A concrete offline base-tier agent. -/
def agentAnnaOffline : User :=
  { id := "user-anna", username := "agent2", password := "password123", role := "agent"
    name := "Anna Martinez", email := "anna.martinez@company.com", isOnline := false
    createdAt := 0 }

/-- The empty store. -/
def emptyStore : Store := { users := [], customers := [], chatSessions := [], messages := [] }

/-- Witness for C1: start a chat against a store seeded with one online
agent, then end it over HTTP; the resulting store is reachable and every
stored session satisfies the invariant. -/
theorem reachable_endTime_iff_resolved_witness :
    (((endChat (genSessionCode 1 "code-uuid") 2
        (startChat "jane@x.com" "Jane Doe" "cust-1" "sess-1" "code-uuid" 1
          { users := [agentMike], customers := [], chatSessions := [],
            messages := [] }).2).2).chatSessions.all
      (fun s => decide (s.endTime ≠ none ↔
        (s.status = "resolved" ∨ s.status = "terminated")))) = true := by
  have h := reachable_endTime_iff_resolved _
    (ReachableStore.step
      (ReachableStore.step (ReachableStore.init [agentMike] [])
        (LifecycleStep.start _ "jane@x.com" "Jane Doe" "cust-1" "sess-1" "code-uuid" 1))
      (LifecycleStep.endHttp _ (genSessionCode 1 "code-uuid") 2))
  rw [List.all_eq_true]
  intro s hs
  exact decide_eq_true (h s hs)

/-! ## Claim C2: no online base-tier agent ⇒ 503 and no session -/

/-- C2: whenever no stored user with role `agent` is online, `POST
/api/chat/start` answers 503 `No agents available` and the set of stored
chat sessions is unchanged. -/
theorem startChat_no_agent_503 (st : Store) (e n cu su co : String) (now : Nat)
    (h : ∀ u ∈ st.users, u.role = "agent" → u.isOnline = false) :
    (startChat e n cu su co now st).1 = StartChatResponse.noAgentsAvailable ∧
    ((startChat e n cu su co now st).2).chatSessions = st.chatSessions := by
  have hfind : (getAgentsByRole (lookupOrCreateCustomer e n cu now st).2 "agent").find?
      (fun a => a.isOnline) = none := by
    rw [List.find?_eq_none]
    intro a ha
    simp only [getAgentsByRole] at ha
    rcases List.mem_filter.mp ha with ⟨hmem, hrole⟩
    rw [lookupOrCreateCustomer_users] at hmem
    have hra : a.role = "agent" := by simpa using hrole
    simp [h a hmem hra]
  refine ⟨?_, ?_⟩
  · simp [startChat, hfind]
  · simp [startChat, hfind, lookupOrCreateCustomer_chatSessions]

/-- Witness for C2: a store whose only users are an online senior agent and
an offline base-tier agent. -/
theorem startChat_no_agent_503_witness :
    (startChat "emma@x.com" "Emma" "cust-2" "sess-2" "code-2" 3
        { users := [seniorDavid, agentAnnaOffline], customers := [], chatSessions := [],
          messages := [] }).1 = StartChatResponse.noAgentsAvailable ∧
    ((startChat "emma@x.com" "Emma" "cust-2" "sess-2" "code-2" 3
        { users := [seniorDavid, agentAnnaOffline], customers := [], chatSessions := [],
          messages := [] }).2).chatSessions = [] :=
  startChat_no_agent_503
    { users := [seniorDavid, agentAnnaOffline], customers := [], chatSessions := [],
      messages := [] }
    "emma@x.com" "Emma" "cust-2" "sess-2" "code-2" 3 (by decide)

/-! ## Claim C10: responses never include the stored password -/

/-- The user object carried by a login response, if any. -/
def responseUser : LoginResponse → Option SerializedUser
  | .ok u => some u
  | .invalidCredentials => none

/-- C10: the user object of every successful `POST /api/auth/login`
response and every element of every `GET /api/agents` response has its
`password` field stripped (absent from the serialised JSON), for every
store and every input. -/
theorem responses_never_include_password (st : Store) (username password : String) :
    Option.all (fun su => su.password.isNone) (responseUser (login username password st).1) = true ∧
    (getAgentsResponse st).all (fun su => su.password.isNone) = true := by
  refine ⟨?_, ?_⟩
  · cases hu : getUserByUsername st username with
    | none => simp [login, hu, responseUser]
    | some u =>
      simp only [login, hu]
      split
      · rfl
      · simp [responseUser, stripPassword]
  · rw [List.all_eq_true]
    intro su hsu
    rcases List.mem_map.mp hsu with ⟨u, _, hmap⟩
    rw [← hmap]
    rfl

/-! ## Claim C9: customer records are reused by email -/

theorem startChat_customers (st : Store) (e n cu su co : String) (now : Nat) :
    ((startChat e n cu su co now st).2).customers =
      ((lookupOrCreateCustomer e n cu now st).2).customers := by
  cases hfind : (getAgentsByRole (lookupOrCreateCustomer e n cu now st).2 "agent").find?
      (fun a => a.isOnline) with
  | none => simp [startChat, hfind]
  | some a => simp [startChat, hfind, createChatSession]

/-- C9: if the start-chat email matches a stored customer, that customer is
reused (the customer table is unchanged and the created session references
the matched customer's id); a customer record is created exactly when no
record matches the email. -/
theorem startChat_customer_reuse (st : Store) (e n cu su co : String) (now : Nat) :
    (∀ c, getCustomerByEmail st e = some c →
      ((startChat e n cu su co now st).2).customers = st.customers ∧
      ∀ sess cust agent, (startChat e n cu su co now st).1 = StartChatResponse.ok sess cust agent →
        cust = c ∧ (c.id ≠ "" → sess.customerId = some c.id)) ∧
    (getCustomerByEmail st e = none → (∀ x ∈ st.customers, x.id ≠ cu) →
      ∃ newC, ((startChat e n cu su co now st).2).customers = st.customers ++ [newC] ∧
        newC.email = e ∧ newC.id = cu ∧ newC.name = n ∧ newC.status = "regular") := by
  refine ⟨?_, ?_⟩
  · intro c hc
    have hl : lookupOrCreateCustomer e n cu now st = (c, st) := by
      simp [lookupOrCreateCustomer, hc]
    refine ⟨by rw [startChat_customers, hl], ?_⟩
    intro sess cust agent heq
    cases hfind : (getAgentsByRole st "agent").find? (fun a => a.isOnline) with
    | none => simp [startChat, hl, hfind] at heq
    | some a =>
      simp only [startChat, hl, createChatSession, hfind] at heq
      injection heq with h1 h2 h3
      refine ⟨h2.symm, fun hcid => ?_⟩
      rw [← h1]
      simp [orNull, hcid]
  · intro hc hfresh
    have hset : listSet (fun c => c.id) st.customers
        { id := cu, name := n, email := e
          customerId := orNull (some ("CUS-" ++ toString now))
          memberSince := now, totalOrders := 0
          status := jsOrStr (some "regular") "regular" } = st.customers ++
          [{ id := cu, name := n, email := e
             customerId := orNull (some ("CUS-" ++ toString now))
             memberSince := now, totalOrders := 0
             status := jsOrStr (some "regular") "regular" }] :=
      listSet_of_fresh _ _ _ (fun y hy => hfresh y hy)
    refine ⟨{ id := cu, name := n, email := e
              customerId := orNull (some ("CUS-" ++ toString now))
              memberSince := now, totalOrders := 0
              status := jsOrStr (some "regular") "regular" },
            ?_, rfl, rfl, rfl, by simp [jsOrStr]⟩
    rw [startChat_customers]
    simp only [lookupOrCreateCustomer, hc, createCustomer]
    exact hset

/-- A concrete stored customer for the C9 witness. -/
def custEmma : Customer :=
  { id := "cust-emma", name := "Emma Wilson", email := "emma.wilson@email.com"
    customerId := some "CUS-2024-5678", memberSince := 0, totalOrders := 24
    status := "premium" }

/-- The store the C9 witness runs against. -/
def reuseStore : Store :=
  { users := [agentMike], customers := [custEmma], chatSessions := [], messages := [] }

/-- Witness for C9: starting a chat with Emma's email leaves the customer
table unchanged and references her id; starting one with a fresh email
appends exactly one new customer record. -/
theorem startChat_customer_reuse_witness :
    (((startChat "emma.wilson@email.com" "Emma W" "cust-x" "sess-x" "code-x" 4
          reuseStore).2).customers = reuseStore.customers ∧
      ∀ sess cust agent,
        (startChat "emma.wilson@email.com" "Emma W" "cust-x" "sess-x" "code-x" 4
            reuseStore).1 = StartChatResponse.ok sess cust agent →
          cust = custEmma ∧ (custEmma.id ≠ "" → sess.customerId = some custEmma.id)) ∧
    (∃ newC, ((startChat "fresh@email.com" "Fresh F" "cust-y" "sess-y" "code-y" 5
          reuseStore).2).customers = reuseStore.customers ++ [newC] ∧
        newC.email = "fresh@email.com" ∧ newC.id = "cust-y" ∧ newC.name = "Fresh F" ∧
        newC.status = "regular") :=
  ⟨(startChat_customer_reuse reuseStore "emma.wilson@email.com" "Emma W" "cust-x" "sess-x"
      "code-x" 4).1 custEmma (by decide),
   (startChat_customer_reuse reuseStore "fresh@email.com" "Fresh F" "cust-y" "sess-y"
      "code-y" 5).2 (by decide) (by decide)⟩

/-! ## Claim C3: HTTP transfer effects -/

theorem transferContent_data (agent : User) :
    (transferContent agent).data =
      "Chat transferred to ".data ++ agent.name.data ++ " (".data
        ++ (replaceFirstUnderscore agent.role).data ++ ")".data := by
  simp [transferContent, String.data_append, List.append_assoc]

/-- C3: a successful `POST /api/chat/transfer` appends exactly one transfer
record whose `fromAgent` is the session's previous agent and whose
`toAgent` is the new agent id, reassigns the session's `agentId`, and
appends exactly one system message in that session whose content contains
the new agent's display name and role (the role rendered with its
underscore as a space, as the code displays it). -/
theorem httpTransferChat_spec (st : Store) (code aid : String) (reason : Option String)
    (msgUuid : String) (now : Nat) (sess : ChatSession) (agent : User)
    (hsess : getChatSessionBySessionId st code = some sess)
    (hid : getChatSession st sess.id = some sess)
    (hagent : getUser st aid = some agent)
    (hfresh : ∀ m ∈ st.messages, m.id ≠ msgUuid)
    (hsid : sess.id ≠ "") :
    ((httpTransferChat code aid reason msgUuid now st).2).chatSessions.find?
        (fun s => s.id == sess.id) = some
      { sess with
          agentId := some aid
          transferHistory := sess.transferHistory ++
            [{ fromAgent := sess.agentId, toAgent := some aid, timestamp := now,
               reason := reason }] } ∧
    ∃ m, ((httpTransferChat code aid reason msgUuid now st).2).messages = st.messages ++ [m] ∧
      m.senderType = some "system" ∧ m.senderId = some "system" ∧
      m.sessionId = some sess.id ∧
      ∃ content, m.content = some content ∧
        agent.name.data <:+: content.data ∧
        (replaceFirstUnderscore agent.role).data <:+: content.data := by
  simp only [httpTransferChat, hsess, hagent, updateChatSession, hid, createMessage]
  constructor
  · have hres := find?_listSet (fun x => x.id) st.chatSessions
      (applySessionUpdate sess
        { agentId := some (some aid)
          transferHistory := some (sess.transferHistory ++
            [{ fromAgent := sess.agentId, toAgent := some aid, timestamp := now,
               reason := reason }]) })
      ⟨sess, List.mem_of_find?_eq_some hsess, by simp [applySessionUpdate]⟩
    exact hres
  · refine ⟨{ id := msgUuid, sessionId := orNull (some sess.id)
              senderId := orNull (some "system"), senderType := some "system"
              content := some (transferContent agent)
              messageType := jsOrStr (some "system") "text", timestamp := now
              readBy := [] }, ?_, rfl, by simp [orNull], by simp [orNull, hsid], ?_⟩
    · exact listSet_of_fresh _ _ _ (fun y hy => hfresh y hy)
    · refine ⟨transferContent agent, rfl, ?_, ?_⟩
      · exact ⟨"Chat transferred to ".data,
          (" (" ++ replaceFirstUnderscore agent.role ++ ")").data, by
            rw [transferContent_data]
            simp [String.data_append, List.append_assoc]⟩
      · exact ⟨("Chat transferred to " ++ agent.name ++ " (").data, ")".data, by
            rw [transferContent_data]
            simp [String.data_append, List.append_assoc]⟩

/-- The session the C3/C4 witnesses and counterexamples transfer. -/
def sessS1 : ChatSession :=
  { id := "sess-1", sessionId := "S1", customerId := some "cust-emma"
    agentId := some "user-mike", status := "active", startTime := 0, endTime := none
    transferHistory := [], rating := none }

/-- An online senior agent the transfer targets ("Anna", promoted for the
test so that her role carries an underscore). -/
def seniorAnna : User :=
  { id := "user-anna2", username := "anna", password := "password123", role := "senior_agent"
    name := "Anna Martinez", email := "anna2@company.com", isOnline := true, createdAt := 0 }

/-- The store the C3 witness runs against. -/
def transferStore : Store :=
  { users := [agentMike, seniorAnna], customers := [custEmma], chatSessions := [sessS1]
    messages := [] }

/-- Witness for C3: transferring session `S1` to Anna with a reason. -/
theorem httpTransferChat_spec_witness :
    ((httpTransferChat "S1" "user-anna2" (some "needs billing expertise") "msg-1" 9
        transferStore).2).chatSessions.find? (fun s => s.id == sessS1.id) = some
      { sessS1 with
          agentId := some "user-anna2"
          transferHistory := sessS1.transferHistory ++
            [{ fromAgent := sessS1.agentId, toAgent := some "user-anna2", timestamp := 9,
               reason := some "needs billing expertise" }] } ∧
    ∃ m, ((httpTransferChat "S1" "user-anna2" (some "needs billing expertise") "msg-1" 9
        transferStore).2).messages = transferStore.messages ++ [m] ∧
      m.senderType = some "system" ∧ m.senderId = some "system" ∧
      m.sessionId = some sessS1.id ∧
      ∃ content, m.content = some content ∧
        seniorAnna.name.data <:+: content.data ∧
        (replaceFirstUnderscore seniorAnna.role).data <:+: content.data :=
  httpTransferChat_spec transferStore "S1" "user-anna2" (some "needs billing expertise")
    "msg-1" 9 sessS1 seniorAnna (by decide) (by decide) (by decide) (by decide) (by decide)

/-! ## Claim C4: socket transfer vs HTTP transfer -/

theorem updateChatSession_messages (st : Store) (id : String) (u : SessionUpdate) :
    ((updateChatSession st id u).2).messages = st.messages := by
  unfold updateChatSession
  cases getChatSession st id <;> rfl

/-- A socket transfer frame that targets a nonexistent agent. -/
def ghostTransferMsg : WSMessage :=
  { type := "session_transfer", sessionId := some "S1"
    data := some { newAgentId := some "ghost", reason := some "expertise" } }

/-- Counterexample for C4: on the same store, transferring session `S1` to
the nonexistent agent `ghost` leaves the store unchanged over HTTP (404
`Agent not found`) but reassigns the session over the socket — the two
paths do not produce the same resulting store state. -/
theorem transfer_paths_cex :
    ((wsSessionTransfer [] ghostTransferMsg 9 transferStore).1).chatSessions ≠
      ((httpTransferChat "S1" "ghost" (some "expertise") "msg-9" 9
        transferStore).2).chatSessions := by decide

/-- C4 (amended): both paths look the session up by code and apply the same
`transferHistory` append and `agentId` reassignment, so when the session
and the target agent both exist the resulting chat-session tables agree;
but only the HTTP path creates a system audit message (the socket path
writes no message), and the socket path skips the agent-existence check
entirely (a socket transfer to a missing agent still mutates the session,
while the HTTP path returns 404 and leaves the store unchanged). -/
theorem transfer_paths_amended :
    (∀ (st : Store) (clients : List WsClient) (code aid : String) (r : Option String)
        (mu : String) (now : Nat) (d : WSData) (msg : WSMessage) (sess : ChatSession)
        (agent : User),
      msg.sessionId = some code → msg.data = some d → code ≠ "" →
      d.newAgentId = some aid → d.reason = r →
      getChatSessionBySessionId st code = some sess →
      getUser st aid = some agent →
      ((httpTransferChat code aid r mu now st).2).chatSessions =
          ((wsSessionTransfer clients msg now st).1).chatSessions ∧
        ((wsSessionTransfer clients msg now st).1).messages = st.messages ∧
        ∃ m, ((httpTransferChat code aid r mu now st).2).messages =
            listSet (fun x => x.id) st.messages m ∧ m.senderType = some "system") ∧
    (∀ (st : Store) (clients : List WsClient) (code aid : String) (r : Option String)
        (mu : String) (now : Nat) (d : WSData) (msg : WSMessage) (sess : ChatSession),
      msg.sessionId = some code → msg.data = some d → code ≠ "" →
      d.newAgentId = some aid →
      getChatSessionBySessionId st code = some sess →
      getUser st aid = none →
      (httpTransferChat code aid r mu now st).2 = st ∧
        ((wsSessionTransfer clients msg now st).1).chatSessions =
          ((updateChatSession st sess.id
            { agentId := some (some aid)
              transferHistory := some (sess.transferHistory ++
                [{ fromAgent := sess.agentId, toAgent := some aid, timestamp := now,
                   reason := d.reason }]) }).2).chatSessions) := by
  refine ⟨?_, ?_⟩
  · intro st clients code aid r mu now d msg sess agent hm hd hcode hna hr hsess hagent
    have hws : (wsSessionTransfer clients msg now st).1 =
        ((updateChatSession st sess.id
          { agentId := some (some aid)
            transferHistory := some (sess.transferHistory ++
              [{ fromAgent := sess.agentId, toAgent := some aid, timestamp := now,
                 reason := r }]) }).2) := by
      simp only [wsSessionTransfer, hm, hd]
      rw [if_pos hcode]
      simp only [hsess, hna, hr]
    refine ⟨?_, ?_, ?_⟩
    · rw [hws]
      simp only [httpTransferChat, hsess, hagent, createMessage]
    · rw [hws, updateChatSession_messages]
    · simp only [httpTransferChat, hsess, hagent, createMessage,
        updateChatSession_messages]
      exact ⟨_, rfl, rfl⟩
  · intro st clients code aid r mu now d msg sess hm hd hcode hna hsess hagent
    refine ⟨?_, ?_⟩
    · simp only [httpTransferChat, hsess, hagent]
    · simp only [wsSessionTransfer, hm, hd]
      rw [if_pos hcode]
      simp only [hsess, hna]

/-- The socket transfer frame the C4 witness uses (targets Anna). -/
def annaTransferMsg : WSMessage :=
  { type := "session_transfer", sessionId := some "S1"
    data := some { newAgentId := some "user-anna2", reason := some "expertise" } }

/-- Witness for C4 (amended), at the concrete store: both clauses applied
to session `S1`, once with the existing target Anna and once with the
missing target `ghost`. -/
theorem transfer_paths_amended_witness :
    (((httpTransferChat "S1" "user-anna2" (some "expertise") "m-2" 9
          transferStore).2).chatSessions =
        ((wsSessionTransfer [] annaTransferMsg 9 transferStore).1).chatSessions ∧
      ((wsSessionTransfer [] annaTransferMsg 9 transferStore).1).messages =
        transferStore.messages ∧
      ∃ m, ((httpTransferChat "S1" "user-anna2" (some "expertise") "m-2" 9
          transferStore).2).messages =
        listSet (fun x => x.id) transferStore.messages m ∧ m.senderType = some "system") ∧
    ((httpTransferChat "S1" "ghost" (some "expertise") "m-3" 9 transferStore).2 =
        transferStore ∧
      ((wsSessionTransfer [] ghostTransferMsg 9 transferStore).1).chatSessions =
        ((updateChatSession transferStore sessS1.id
          { agentId := some (some "ghost")
            transferHistory := some (sessS1.transferHistory ++
              [{ fromAgent := sessS1.agentId, toAgent := some "ghost", timestamp := 9,
                 reason := some "expertise" }]) }).2).chatSessions) :=
  ⟨transfer_paths_amended.1 transferStore [] "S1" "user-anna2" (some "expertise") "m-2" 9
      _ annaTransferMsg sessS1 seniorAnna rfl rfl (by decide) rfl rfl (by decide) (by decide),
   transfer_paths_amended.2 transferStore [] "S1" "ghost" (some "expertise") "m-3" 9
      _ ghostTransferMsg sessS1 rfl rfl (by decide) rfl (by decide) (by decide)⟩

/-! ## Claim C5: store failure during chat_message -/

/-- Two open connections bound to session `S1`; `snd` is the sender. -/
def c5Clients : List WsClient :=
  [{ clientId := "snd", userId := some "cust-emma", userType := "customer"
     sessionId := some "S1", isOpen := true },
   { clientId := "rcv", userId := some "user-mike", userType := "agent"
     sessionId := some "S1", isOpen := true }]

/-- A well-formed inbound chat message on session `S1`. -/
def helloMsg : WSMessage :=
  { type := "chat_message", sessionId := some "S1", userId := some "cust-emma"
    userType := some "customer", data := some { content := some "hello" } }

/-- Counterexample for C5: when `createMessage` throws, the handler indeed
broadcasts nothing, but the error is *not* surfaced to the triggering
connection — it is only logged server-side by the catch-all handler, so
the claim that the error is sent back to the sender is false. -/
theorem ws_store_failure_cex :
    (wsChatMessageWith c5Clients helloMsg (Except.error "db down") emptyStore).deliveries = [] ∧
    (wsChatMessageWith c5Clients helloMsg (Except.error "db down") emptyStore).errorToSender = none ∧
    (wsChatMessageWith c5Clients helloMsg (Except.error "db down") emptyStore).serverLog =
      some "WebSocket message error: db down" := by decide

/-- C5 (amended): if `createMessage` fails, no broadcast is sent and no
error frame is sent to any connection (the sender included); the error is
only logged server-side. The event is fanned out exactly when the store
confirms the write. -/
theorem ws_store_failure_amended (clients : List WsClient) (msg : WSMessage) (st : Store)
    (sid : String) (d : WSData) (e : String)
    (hm : msg.sessionId = some sid) (hsid : sid ≠ "") (hd : msg.data = some d) :
    wsChatMessageWith clients msg (Except.error e) st =
      { store := st, deliveries := [], errorToSender := none
        serverLog := some ("WebSocket message error: " ++ e) } ∧
    ∀ m st1, wsChatMessageWith clients msg (Except.ok (m, st1)) st =
      { store := st1
        deliveries := broadcastToSession clients sid (OutEvent.chatMessage sid m d.senderName) none
        errorToSender := none, serverLog := none } := by
  constructor
  · simp only [wsChatMessageWith, hm, hd]
    rw [if_pos hsid]
  · intro m st1
    simp only [wsChatMessageWith, hm, hd]
    rw [if_pos hsid]

/-- Witness for C5 (amended) at the concrete session-`S1` fixture. -/
theorem ws_store_failure_amended_witness :
    wsChatMessageWith c5Clients helloMsg (Except.error "db down") emptyStore =
      { store := emptyStore, deliveries := [], errorToSender := none
        serverLog := some ("WebSocket message error: " ++ "db down") } ∧
    ∀ m st1, wsChatMessageWith c5Clients helloMsg (Except.ok (m, st1)) emptyStore =
      { store := st1
        deliveries := broadcastToSession c5Clients "S1"
          (OutEvent.chatMessage "S1" m (WSData.senderName { content := some "hello" })) none
        errorToSender := none, serverLog := none } :=
  ws_store_failure_amended c5Clients helloMsg emptyStore "S1" { content := some "hello" }
    "db down" rfl (by decide) rfl

/-! ## Claim C6: what the chat_message guard actually checks -/

/-- A sender connection with no session binding. -/
def unboundSender : WsClient :=
  { clientId := "snd", userId := some "u1", userType := "customer"
    sessionId := none, isOpen := true }

/-- An open agent connection bound to `S1`. -/
def boundReceiver : WsClient :=
  { clientId := "rcv", userId := some "user-mike", userType := "agent"
    sessionId := some "S1", isOpen := true }

/-- A chat_message frame whose content is the empty string. -/
def emptyContentMsg : WSMessage :=
  { type := "chat_message", sessionId := some "S1", userId := some "u1"
    userType := some "customer", data := some { content := some "" } }

/-- Counterexample for C6: an event whose sender has no bound session and
whose content is empty is still persisted (one message stored) and still
broadcast (one delivery), because the handler only checks that the frame
carries a session id and a data payload. -/
theorem ws_chat_message_guard_cex :
    ((wsChatMessage [unboundSender, boundReceiver] emptyContentMsg "m-6" 7
        emptyStore).store).messages.length = 1 ∧
    ((wsChatMessage [unboundSender, boundReceiver] emptyContentMsg "m-6" 7
        emptyStore).deliveries).length = 1 ∧
    unboundSender.sessionId = none ∧
    emptyContentMsg.data = some { content := some "" } := by decide

/-- C6 (amended): a message is persisted exactly when the inbound frame
carries a non-empty `sessionId` and a `data` payload; neither the sending
connection's binding nor non-emptiness of the content is checked, so an
event with empty content is stored and broadcast like any other, while a
frame without a session id or payload stores and broadcasts nothing. -/
theorem ws_chat_message_persist_amended :
    (∀ (clients : List WsClient) (msg : WSMessage) (uuid : String) (now : Nat) (st : Store)
        (sid : String) (d : WSData),
      msg.sessionId = some sid → sid ≠ "" → msg.data = some d →
      (∀ m ∈ st.messages, m.id ≠ uuid) →
      ∃ m, ((wsChatMessage clients msg uuid now st).store).messages = st.messages ++ [m] ∧
        m.content = d.content ∧ m.sessionId = some sid ∧
        m.senderId = orNull msg.userId ∧ m.senderType = msg.userType ∧
        (wsChatMessage clients msg uuid now st).deliveries =
          broadcastToSession clients sid (OutEvent.chatMessage sid m d.senderName) none) ∧
    (∀ (clients : List WsClient) (msg : WSMessage) (uuid : String) (now : Nat) (st : Store),
      (msg.sessionId = none ∨ msg.sessionId = some "" ∨ msg.data = none) →
      (wsChatMessage clients msg uuid now st).store = st ∧
      (wsChatMessage clients msg uuid now st).deliveries = []) := by
  refine ⟨?_, ?_⟩
  · intro clients msg uuid now st sid d hm hsid hd hfresh
    refine ⟨{ id := uuid, sessionId := orNull (some sid), senderId := orNull msg.userId
              senderType := msg.userType, content := d.content
              messageType := jsOrStr (some "text") "text", timestamp := now
              readBy := [] }, ?_, rfl, by simp [orNull, hsid], rfl, rfl, ?_⟩
    · simp only [wsChatMessage, wsChatMessageWith, hm, hd, Option.some_bind]
      rw [if_pos hsid]
      simp only [createMessage]
      exact listSet_of_fresh _ _ _ (fun y hy => hfresh y hy)
    · simp only [wsChatMessage, wsChatMessageWith, hm, hd, Option.some_bind]
      rw [if_pos hsid]
      simp only [createMessage]
  · intro clients msg uuid now st h
    rcases h with h | h | h
    · cases hd : msg.data with
      | none => exact ⟨by simp only [wsChatMessage, wsChatMessageWith, h, hd], by
          simp only [wsChatMessage, wsChatMessageWith, h, hd]⟩
      | some d => exact ⟨by simp only [wsChatMessage, wsChatMessageWith, h, hd], by
          simp only [wsChatMessage, wsChatMessageWith, h, hd]⟩
    · cases hd : msg.data with
      | none => exact ⟨by simp only [wsChatMessage, wsChatMessageWith, h, hd], by
          simp only [wsChatMessage, wsChatMessageWith, h, hd]⟩
      | some d =>
        constructor
        · simp only [wsChatMessage, wsChatMessageWith, h, hd]
          rw [if_neg (by simp)]
        · simp only [wsChatMessage, wsChatMessageWith, h, hd]
          rw [if_neg (by simp)]
    · cases hm : msg.sessionId with
      | none => exact ⟨by simp only [wsChatMessage, wsChatMessageWith, hm, h], by
          simp only [wsChatMessage, wsChatMessageWith, hm, h]⟩
      | some sid => exact ⟨by simp only [wsChatMessage, wsChatMessageWith, hm, h], by
          simp only [wsChatMessage, wsChatMessageWith, hm, h]⟩

/-- Witness for C6 (amended): the positive clause applied to the concrete
empty-content frame, and the negative clause applied to a frame without a
session id. -/
theorem ws_chat_message_persist_amended_witness :
    (∃ m, ((wsChatMessage [unboundSender, boundReceiver] emptyContentMsg "m-6" 7
          emptyStore).store).messages = emptyStore.messages ++ [m] ∧
        m.content = (WSData.content { content := some "" }) ∧ m.sessionId = some "S1" ∧
        m.senderId = orNull emptyContentMsg.userId ∧
        m.senderType = emptyContentMsg.userType ∧
        (wsChatMessage [unboundSender, boundReceiver] emptyContentMsg "m-6" 7
            emptyStore).deliveries =
          broadcastToSession [unboundSender, boundReceiver] "S1"
            (OutEvent.chatMessage "S1" m (WSData.senderName { content := some "" })) none) ∧
    ((wsChatMessage [] { type := "chat_message" } "m-7" 8 emptyStore).store = emptyStore ∧
      (wsChatMessage [] { type := "chat_message" } "m-7" 8 emptyStore).deliveries = []) :=
  ⟨ws_chat_message_persist_amended.1 [unboundSender, boundReceiver] emptyContentMsg "m-6" 7
      emptyStore "S1" { content := some "" } rfl (by decide) rfl (by decide),
   ws_chat_message_persist_amended.2 [] { type := "chat_message" } "m-7" 8 emptyStore
      (Or.inl rfl)⟩

/-! ## Claim C7: typing indicators -/

/-- C7: a typing-indicator frame carrying a (non-empty) session code is
forwarded verbatim to every *other* open connection bound to that session,
is never delivered back to the sending connection, and leaves the store
untouched (nothing persisted). -/
theorem ws_typing_spec (clients : List WsClient) (sender : String) (msg : WSMessage)
    (st : Store) (sid : String) (hm : msg.sessionId = some sid) (hsid : sid ≠ "") :
    (wsTyping clients sender msg st).1 = st ∧
    (∀ ev, (sender, ev) ∉ (wsTyping clients sender msg st).2) ∧
    (∀ c ∈ clients, c.clientId ≠ sender → c.sessionId = some sid → c.isOpen = true →
      (c.clientId, OutEvent.typingForward msg) ∈ (wsTyping clients sender msg st).2) := by
  have hred : wsTyping clients sender msg st =
      (st, broadcastToSession clients sid (OutEvent.typingForward msg) (some sender)) := by
    simp only [wsTyping, hm]
    rw [if_pos hsid]
  rw [hred]
  refine ⟨rfl, ?_, ?_⟩
  · intro ev hmem
    rcases List.mem_map.mp hmem with ⟨c, hc, heq⟩
    rcases List.mem_filter.mp hc with ⟨_, hcond⟩
    have h2 : (some c.clientId != some sender) = true := by
      simp only [Bool.and_eq_true] at hcond
      exact hcond.1.2
    have hfst : c.clientId = sender := by
      have := congrArg Prod.fst heq
      simpa using this
    rw [hfst] at h2
    simp at h2
  · intro c hc hne hbound hopen
    refine List.mem_map.mpr ⟨c, List.mem_filter.mpr ⟨hc, ?_⟩, rfl⟩
    simp [hbound, hopen, hne]

/-- A third open connection bound to a different session, for the C7 witness. -/
def otherSessionClient : WsClient :=
  { clientId := "other", userId := some "u9", userType := "agent"
    sessionId := some "S2", isOpen := true }

/-- A typing frame on session `S1`. -/
def typingMsg : WSMessage :=
  { type := "agent_typing", sessionId := some "S1", userId := some "user-mike"
    userType := some "agent" }

/-- Witness for C7 at three concrete connections. -/
theorem ws_typing_spec_witness :
    (wsTyping (c5Clients ++ [otherSessionClient]) "snd" typingMsg emptyStore).1 = emptyStore ∧
    (∀ ev, ("snd", ev) ∉
      (wsTyping (c5Clients ++ [otherSessionClient]) "snd" typingMsg emptyStore).2) ∧
    (∀ c ∈ c5Clients ++ [otherSessionClient], c.clientId ≠ "snd" →
      c.sessionId = some "S1" → c.isOpen = true →
      (c.clientId, OutEvent.typingForward typingMsg) ∈
        (wsTyping (c5Clients ++ [otherSessionClient]) "snd" typingMsg emptyStore).2) :=
  ws_typing_spec (c5Clients ++ [otherSessionClient]) "snd" typingMsg emptyStore "S1"
    rfl (by decide)

/-! ## Claim C8: session-code uniqueness is not verified -/

/-- A stored session whose code collides with the code generated at
`now = 5`, `uuid = "abcdefgh-9999"`. -/
def collidingSession : ChatSession :=
  { id := "old-1", sessionId := "CHT-5-abcdefgh", customerId := none
    agentId := some "user-mike", status := "active", startTime := 0, endTime := none
    transferHistory := [], rating := none }

/-- The store the C8 counterexample and witness run against. -/
def collisionStore : Store :=
  { users := [agentMike], customers := [], chatSessions := [collidingSession], messages := [] }

/-- Counterexample for C8: a start-chat whose generated code collides with
an already stored session's code is accepted without any store-side check,
leaving two stored sessions with the same code — the generated code is not
globally unique and no verification against the store takes place. -/
theorem session_code_collision_cex :
    (((startChat "dup@x.com" "Dup User" "cust-8" "sess-8" "abcdefgh-9999" 5
        collisionStore).2).chatSessions.countP
      (fun s => s.sessionId == "CHT-5-abcdefgh")) = 2 := by decide

/-- C8 (amended): the session code is `CHT-` + timestamp + `-` + an 8-char
random-UUID slice; uniqueness is only assumed from entropy. Whenever an
online base-tier agent exists the start-chat succeeds and stores a session
with exactly that generated code, with no store lookup of the code — in
particular every previously stored session (colliding code included)
remains alongside the new one. -/
theorem startChat_code_unverified (st : Store) (e n cu su co : String) (now : Nat) (a : User)
    (hfind : (getAgentsByRole st "agent").find? (fun x => x.isOnline) = some a) :
    ∃ sess cust, (startChat e n cu su co now st).1 = StartChatResponse.ok sess cust a ∧
      sess.sessionId = genSessionCode now co ∧
      sess ∈ ((startChat e n cu su co now st).2).chatSessions ∧
      ∀ old ∈ st.chatSessions, old.id ≠ su →
        old ∈ ((startChat e n cu su co now st).2).chatSessions := by
  have hfind2 : (getAgentsByRole (lookupOrCreateCustomer e n cu now st).2 "agent").find?
      (fun x => x.isOnline) = some a := by
    unfold getAgentsByRole
    rw [lookupOrCreateCustomer_users]
    exact hfind
  refine ⟨{ id := su, sessionId := genSessionCode now co
            customerId := orNull (some (lookupOrCreateCustomer e n cu now st).1.id)
            agentId := orNull (some a.id), status := jsOrStr (some "active") "active"
            startTime := now, endTime := none, transferHistory := [], rating := none },
          (lookupOrCreateCustomer e n cu now st).1, ?_, rfl, ?_, ?_⟩
  · simp only [startChat, hfind2, createChatSession]
  · simp only [startChat, hfind2, createChatSession]
    rw [lookupOrCreateCustomer_chatSessions]
    exact self_mem_listSet _ _ _
  · intro old hold hne
    simp only [startChat, hfind2, createChatSession]
    rw [lookupOrCreateCustomer_chatSessions]
    exact mem_listSet_of_ne_key _ _ _ _ hold hne

/-- Witness for C8 (amended): applied at the concrete colliding store. -/
theorem startChat_code_unverified_witness :
    ∃ sess cust, (startChat "dup@x.com" "Dup User" "cust-8" "sess-8" "abcdefgh-9999" 5
        collisionStore).1 = StartChatResponse.ok sess cust agentMike ∧
      sess.sessionId = genSessionCode 5 "abcdefgh-9999" ∧
      sess ∈ ((startChat "dup@x.com" "Dup User" "cust-8" "sess-8" "abcdefgh-9999" 5
        collisionStore).2).chatSessions ∧
      ∀ old ∈ collisionStore.chatSessions, old.id ≠ "sess-8" →
        old ∈ ((startChat "dup@x.com" "Dup User" "cust-8" "sess-8" "abcdefgh-9999" 5
          collisionStore).2).chatSessions :=
  startChat_code_unverified collisionStore "dup@x.com" "Dup User" "cust-8" "sess-8"
    "abcdefgh-9999" 5 agentMike (by decide)

end EnterpriseChatX
